import Mathlib

/-!
Verification of the webpty-pty PTY session lifecycle engine.

This file is a shallow embedding, in Lean 4, of the core of the
`webpty-pty` daemon: shell resolution (`internal/pty/autodetect.go`),
session spawn (`internal/pty/spawn.go`), the relay read loop and the
write/resize operations (`session.go`, given as `src/unnamed/part_000`),
session teardown (`cleanup.go`, given as `src/unnamed/part_002`), and the
socket-level request handlers (`server.go`, given as `src/unnamed/part_004`).

Modelling conventions:
- an `*os.File` value is modelled by `WebPty.FileM`, which counts how many
  times `Close` was invoked on the Go file object (`closeCalls`) and how
  many times the underlying OS descriptor was actually released
  (`fdCloses`); Go's `os.File.Close` releases the descriptor only on the
  first call and merely returns an error afterwards;
- a nullable Go pointer field is an `Option`;
- syscalls that can fail are driven by boolean oracles (`SpawnEnv`) so
  that every failure branch of the Go code is reachable in the model;
- the side effects of the read loop and of teardown are recorded as
  explicit event traces, so ordering properties can be stated;
- Go's `uint16(x)` conversion of an `int` is `(x % 65536).toNat` on `Int`.
-/

namespace WebPty

/-- Bytes are modelled as `Nat`, chunks read from the pty as lists of bytes. -/
abbrev Chunk := List Nat

/-- Model of a Go `*os.File` object (pty master, log file, FIFO writer).
`closeCalls` counts invocations of the `Close` method on this object;
`fdCloses` counts actual releases of the underlying OS descriptor. -/
structure FileM where
  closeCalls : Nat
  fdCloses : Nat
  deriving DecidableEq, Repr

/-- Go `os.File.Close`: every call increments `closeCalls`; the OS
descriptor is released only if it has not been released before (further
calls return an `os.ErrClosed` error without touching the descriptor). -/
def FileM.close (f : FileM) : FileM :=
  { closeCalls := f.closeCalls + 1,
    fdCloses := if f.fdCloses = 0 then 1 else f.fdCloses }

/-- Whether the underlying descriptor of the file object has been released. -/
def FileM.isClosed (f : FileM) : Bool := decide (0 < f.fdCloses)

/-- A freshly opened file object: no close calls, descriptor live. -/
def freshFile : FileM := { closeCalls := 0, fdCloses := 0 }

/-- Model of the `Session` struct of `session.go` (`src/unnamed/part_000`):
`ID`, `Pty`, `logFile`, `fifoPath`, `fifoWriter` fields, plus a flag for
`Cmd != nil && Cmd.Process != nil`.  `none` models a nil pointer. -/
structure Session where
  id : String
  pty : Option FileM
  logFile : Option FileM
  fifoPath : String
  fifoWriter : Option FileM
  procPresent : Bool
  deriving DecidableEq, Repr

/-- The two error values a write/resize can surface: `errClosedPipe` is
`io.ErrClosedPipe`, returned by the `s.Pty == nil` guard; `errFileClosed`
is the `os.ErrClosed`-based error returned when the operation is invoked
on a file object whose descriptor was already released. -/
inductive WErr where
  | errClosedPipe
  | errFileClosed
  deriving DecidableEq, Repr

/-- Error strings as produced by the Go error values. -/
def werrMessage : WErr → String
  | WErr.errClosedPipe => "io: read/write on closed pipe"
  | WErr.errFileClosed => "file already closed"

/-- Model of `Session.Write` (`session.go` lines 26-33): under the lock,
if `s.Pty == nil` return `io.ErrClosedPipe`; otherwise forward the bytes
to the pty master (which itself errors if its descriptor is closed). -/
def Session.write (s : Session) (data : Chunk) : Except WErr Nat :=
  match s.pty with
  | none => Except.error WErr.errClosedPipe
  | some f =>
    if f.isClosed then Except.error WErr.errFileClosed
    else Except.ok data.length

/-- Go conversion `uint16(x)` applied to an `int`: the low 16 bits,
i.e. reduction modulo 2^16 (non-negative representative). -/
def goUint16 (x : Int) : Nat := (x % 65536).toNat

/-- The window size actually handed to `ptylib.Setsize`. -/
structure Winsize where
  rows : Nat
  cols : Nat
  deriving DecidableEq, Repr

/-- Model of `Session.Resize` (`session.go` lines 87-97): under the lock,
if `s.Pty == nil` return `io.ErrClosedPipe`; otherwise call
`Setsize(s.Pty, &Winsize{Rows: uint16(rows), Cols: uint16(cols)})`.
No validation of the dimensions is performed here: the `int` arguments
are narrowed to 16-bit unsigned values. -/
def Session.resize (s : Session) (cols rows : Int) : Except WErr Winsize :=
  match s.pty with
  | none => Except.error WErr.errClosedPipe
  | some f =>
    if f.isClosed then Except.error WErr.errFileClosed
    else Except.ok { rows := goUint16 rows, cols := goUint16 cols }

/-! ### Relay loop (`Session.ReadLoop`, `session.go` lines 37-79) -/

/-- One observable side effect of the relay loop body: a chunk handed to
the per-chunk FIFO goroutine, a synchronous write of a chunk to the log
file, or a `logFile.Sync()` flush. -/
inductive LEvent where
  | fifoDispatch (c : Chunk)
  | logWrite (c : Chunk)
  | logSync
  deriving DecidableEq, Repr

/-- Model of the body of `Session.ReadLoop`: `reads` is the sequence of
successful pty reads (the loop exits on the first read error or EOF,
which produces no sink writes).  A zero-byte read is skipped (`continue`).
Otherwise the chunk is copied and, if a FIFO writer is attached, handed
to a fire-and-forget goroutine; then, if the log file is present, written
synchronously to the log and followed immediately by `Sync()`.
Log writes are modelled as succeeding (on a write error the Go code logs
and keeps looping). -/
def readLoopEvents (fifoPresent logPresent : Bool) : List Chunk → List LEvent
  | [] => []
  | c :: rest =>
    (if c.isEmpty then []
     else
       (if fifoPresent then [LEvent.fifoDispatch c] else []) ++
       (if logPresent then [LEvent.logWrite c, LEvent.logSync] else []))
    ++ readLoopEvents fifoPresent logPresent rest

/-- The log-sink events (writes and flushes) of a relay-loop trace. -/
def logEvents (evs : List LEvent) : List LEvent :=
  evs.filter fun e =>
    match e with
    | LEvent.logWrite _ => true
    | LEvent.logSync => true
    | LEvent.fifoDispatch _ => false

/-- The byte content accumulated in the log file by a relay-loop trace. -/
def logContent (evs : List LEvent) : Chunk :=
  evs.flatMap fun e =>
    match e with
    | LEvent.logWrite c => c
    | _ => []

/-! ### Teardown (`CleanupSession`, `cleanup.go` / `src/unnamed/part_002`) -/

/-- Observable steps of `CleanupSession`, in the order the code performs
them.  `startWaiter` is the `go func() { done <- sess.Cmd.Wait() }()`
statement; `exitCheck` is the `select { case <-done: ... default: ... }`
statement, which inspects the channel without waiting; `blockingWait` is
the final `sess.Cmd.Wait()` of the escalation branch. -/
inductive CEvent where
  | closePty
  | closeLog
  | closeFifoWriter
  | removeFifoFile
  | sigTerm
  | startWaiter
  | exitCheck
  | sigKill
  | blockingWait
  | reapByWaiter
  | removeFromRegistry
  deriving DecidableEq, Repr

/-- World state around one session during teardown: the session object,
whether its FIFO file is still on disk, whether its registry entry is
present, and counters for the process-directed actions.
`removeEffective` counts registry deletions that actually removed an
entry (Go's `delete` on an absent key is a no-op). -/
structure World where
  sess : Session
  fifoOnDisk : Bool
  registryHasEntry : Bool
  removeEffective : Nat
  termSignals : Nat
  killSignals : Nat
  reaped : Bool
  deriving DecidableEq, Repr

/-- Invoke `Close` on an optional file object field, as the guarded
statements `if sess.X != nil { sess.X.Close() }` do.  The field itself is
left pointing at the (now closed) object — the Go code never assigns nil. -/
def closeOptFile : Option FileM → Option FileM
  | some f => some f.close
  | none => none

/-- The close event emitted by a guarded close statement: present exactly
when the field is non-nil. -/
def closeEvt (tag : CEvent) : Option FileM → List CEvent
  | some _ => [tag]
  | none => []

/-- Steps 1-3 of `CleanupSession`: close pty, log file virtual and FIFO
writer, each guarded only by a nil check on the field; no field is
cleared. -/
def closeHandles (s : Session) : Session × List CEvent :=
  ({ s with
      pty := closeOptFile s.pty,
      logFile := closeOptFile s.logFile,
      fifoWriter := closeOptFile s.fifoWriter },
   closeEvt CEvent.closePty s.pty ++ closeEvt CEvent.closeLog s.logFile ++
     closeEvt CEvent.closeFifoWriter s.fifoWriter)

/-- The process-termination phase of `CleanupSession` (lines 37-55): send
SIGTERM (failure merely logged), start a waiter goroutine running
`Cmd.Wait()`, then a `select` with a `default` branch — an immediate,
non-blocking check of whether the waiter already delivered; if it has not
(`exitedAtCheck = false`), send SIGKILL and perform a final blocking
`Cmd.Wait()`.  `exitedAtCheck` models the race outcome at the `select`. -/
def procTermEvents (exitedAtCheck : Bool) : List CEvent :=
  [CEvent.sigTerm, CEvent.startWaiter, CEvent.exitCheck] ++
    (if exitedAtCheck then [CEvent.reapByWaiter]
     else [CEvent.sigKill, CEvent.blockingWait])

/-- Model of `CleanupSession` (`src/unnamed/part_002` lines 12-59).
Steps in code order: close pty / log / FIFO writer (each behind a nil
check on the never-cleared field), remove the FIFO file if the path is
non-empty (absence not an error), run the process-termination phase if
the `Cmd`/`Process` handles are present, and finally delete the session
from the manager. -/
def cleanupSession (exitedAtCheck : Bool) (w : World) : World × List CEvent :=
  let sc := closeHandles w.sess
  let fifoEvs : List CEvent :=
    if sc.1.fifoPath = "" then [] else [CEvent.removeFifoFile]
  let fifoDisk : Bool := if sc.1.fifoPath = "" then w.fifoOnDisk else false
  let procEvs : List CEvent :=
    if sc.1.procPresent then procTermEvents exitedAtCheck else []
  let term : Nat := if sc.1.procPresent then w.termSignals + 1 else w.termSignals
  let kill : Nat :=
    if sc.1.procPresent then
      (if exitedAtCheck then w.killSignals else w.killSignals + 1)
    else w.killSignals
  let reaped : Bool := if sc.1.procPresent then true else w.reaped
  let removeEff : Nat :=
    w.removeEffective + (if w.registryHasEntry then 1 else 0)
  ({ sess := sc.1,
     fifoOnDisk := fifoDisk,
     registryHasEntry := false,
     removeEffective := removeEff,
     termSignals := term,
     killSignals := kill,
     reaped := reaped },
   sc.2 ++ fifoEvs ++ procEvs ++ [CEvent.removeFromRegistry])

/-- A session as it comes out of a successful spawn: all handles fresh. -/
def sess0 : Session :=
  { id := "s0",
    pty := some freshFile,
    logFile := some freshFile,
    fifoPath := "/run/sessions/s0.out",
    fifoWriter := some freshFile,
    procPresent := true }

/-- World state of `sess0` right after spawn: FIFO on disk, registered. -/
def w0 : World :=
  { sess := sess0,
    fifoOnDisk := true,
    registryHasEntry := true,
    removeEffective := 0,
    termSignals := 0,
    killSignals := 0,
    reaped := false }

/-- Statement of claim C2 as written: on a second invocation of teardown
no step re-executes — in particular no handle's `Close` is invoked again —
because "every teardown step is guarded by a check of whether the
resource is already released". -/
def teardownGuardClaim : Prop :=
  ∀ (w : World) (e1 e2 : Bool),
    ((cleanupSession e2 (cleanupSession e1 w).1).1.sess.pty.map FileM.closeCalls
        = (cleanupSession e1 w).1.sess.pty.map FileM.closeCalls)
    ∧ ((cleanupSession e2 (cleanupSession e1 w).1).1.sess.logFile.map FileM.closeCalls
        = (cleanupSession e1 w).1.sess.logFile.map FileM.closeCalls)
    ∧ ((cleanupSession e2 (cleanupSession e1 w).1).1.sess.fifoWriter.map FileM.closeCalls
        = (cleanupSession e1 w).1.sess.fifoWriter.map FileM.closeCalls)

/-! ### Shell resolution (`DetectShell`, `internal/pty/autodetect.go`) -/

/-- Abstraction of the filesystem facts `isExecutable` consults:
whether `os.Stat` succeeds, whether the mode is a regular file, whether
some execute bit (0111) is set, whether `filepath.Abs` succeeds, and
whether `exec.LookPath` on the absolute path succeeds. -/
structure FSys where
  statOk : String → Bool
  isRegular : String → Bool
  execBit : String → Bool
  absOk : String → Bool
  lookPathOk : String → Bool

/-- Model of `isExecutable` (`autodetect.go` lines 39-60), following the
control flow of the Go code. -/
def isExecutable (fs : FSys) (path : String) : Bool :=
  if !fs.statOk path then false
  else if !fs.isRegular path then false
  else if fs.execBit path then
    if !fs.absOk path then false
    else fs.lookPathOk path
  else false

/-- The fixed fallback list of `DetectShell`. -/
def shellFallbacks : List String := ["/bin/bash", "/bin/zsh", "/bin/sh"]

/-- The `for _, candidate := range candidates` loop of `DetectShell`:
first executable candidate, in order. -/
def firstExecutable (fs : FSys) : List String → Option String
  | [] => none
  | c :: rest =>
    if isExecutable fs c then some c else firstExecutable fs rest

/-- Model of `DetectShell` (`autodetect.go` lines 16-36): if `$SHELL` is
non-empty and executable return it, otherwise scan the fallback list,
otherwise fail. -/
def detectShell (fs : FSys) (shellEnv : String) : Except String String :=
  if shellEnv ≠ "" ∧ isExecutable fs shellEnv = true then Except.ok shellEnv
  else
    match firstExecutable fs shellFallbacks with
    | some c => Except.ok c
    | none =>
      Except.error "no shell found: checked $SHELL, /bin/bash, /bin/zsh, /bin/sh"

/-- The claim's candidate order: the shell environment variable when set,
then the fixed fallback list. -/
def shellCandidates (shellEnv : String) : List String :=
  (if shellEnv ≠ "" then [shellEnv] else []) ++ shellFallbacks

/-- The claim's notion of a usable shell, spelled from the spec's words:
the path exists (stat succeeds), is a regular file, has at least one
execute permission bit, and resolves as an executable path. -/
def usableShell (fs : FSys) (p : String) : Bool :=
  fs.statOk p && fs.isRegular p && fs.execBit p && fs.absOk p && fs.lookPathOk p

/-- Whether an `Except` computation succeeded. -/
def exceptIsOk {α β : Type} : Except α β → Bool
  | Except.ok _ => true
  | Except.error _ => false

/-- Equality of `Except` values is decidable when it is on both sides. -/
instance {α β : Type} [DecidableEq α] [DecidableEq β] :
    DecidableEq (Except α β) := fun a b =>
  match a, b with
  | Except.ok x, Except.ok y => decidable_of_iff (x = y) (by simp)
  | Except.ok _, Except.error _ => Decidable.isFalse (by simp)
  | Except.error _, Except.ok _ => Decidable.isFalse (by simp)
  | Except.error x, Except.error y => decidable_of_iff (x = y) (by simp)

/-! ### Spawn (`SpawnShell`, `internal/pty/spawn.go`) -/

/-- Outcome oracles for the fallible steps of `SpawnShell`, in code
order: shell detection result, `ptylib.Start`, the two `expandPath`
calls, the two `os.MkdirAll` calls, the stale-FIFO `os.Remove`,
`syscall.Mkfifo`, the non-blocking `os.OpenFile` of the FIFO, and the
`os.OpenFile` of the log file. -/
structure SpawnEnv where
  detect : Except String String
  ptyStartOk : Bool
  expandSessionsOk : Bool
  expandLogOk : Bool
  mkdirSessionsOk : Bool
  mkdirLogOk : Bool
  removeStaleOk : Bool
  mkfifoOk : Bool
  openFifoOk : Bool
  openLogOk : Bool
  deriving DecidableEq, Repr

/-- Resource ledger of one spawn attempt. -/
structure SpawnState where
  ptyStarted : Bool
  ptyClosed : Bool
  procStarted : Bool
  procKilled : Bool
  fifoOnDisk : Bool
  fifoWriterOpen : Bool
  logOpen : Bool
  registered : Bool
  readLoopStarted : Bool
  deriving DecidableEq, Repr

/-- Ledger before any allocation. -/
def initialSpawnState : SpawnState :=
  { ptyStarted := false, ptyClosed := false, procStarted := false,
    procKilled := false, fifoOnDisk := false, fifoWriterOpen := false,
    logOpen := false, registered := false, readLoopStarted := false }

/-- The rollback pair `ptyFile.Close(); cmd.Process.Kill()` used by every
fatal failure branch after the pty/child has been started. -/
def rollbackPtyProc (st : SpawnState) : SpawnState :=
  { st with ptyClosed := true, procKilled := true }

/-- Result of a spawn attempt: the Go return value plus the ledger. -/
structure SpawnResult where
  outcome : Except String Session
  state : SpawnState
  deriving DecidableEq, Repr

/-- Model of `SpawnShell` (`internal/pty/spawn.go` lines 100-200 — the
per-user-paths variant, which the README/protocol document describes;
the `src/unnamed/part_001` variant differs only in using fixed system
paths and in treating the FIFO open as fatal).  Each failure branch
performs exactly the releases the Go code performs.  The FIFO open
(step 5) is non-fatal: on failure `fifoWriter` is set to nil and the
spawn continues.  `id` stands for the generated UUID. -/
def spawnShell (env : SpawnEnv) (id : String) : SpawnResult :=
  match env.detect with
  | Except.error e =>
    { outcome := Except.error ("shell detection failed: " ++ e),
      state := initialSpawnState }
  | Except.ok _shellPath =>
    if !env.ptyStartOk then
      { outcome := Except.error "failed to start PTY",
        state := initialSpawnState }
    else
      let st1 := { initialSpawnState with ptyStarted := true, procStarted := true }
      if !env.expandSessionsOk then
        { outcome := Except.error "failed to expand sessions directory",
          state := rollbackPtyProc st1 }
      else if !env.expandLogOk then
        { outcome := Except.error "failed to expand log directory",
          state := rollbackPtyProc st1 }
      else if !env.mkdirSessionsOk then
        { outcome := Except.error "failed to create sessions directory",
          state := rollbackPtyProc st1 }
      else if !env.mkdirLogOk then
        { outcome := Except.error "failed to create log directory",
          state := rollbackPtyProc st1 }
      else if !env.removeStaleOk then
        { outcome := Except.error "failed to remove existing FIFO",
          state := rollbackPtyProc st1 }
      else if !env.mkfifoOk then
        { outcome := Except.error "failed to create FIFO",
          state := rollbackPtyProc st1 }
      else
        let st2 := { st1 with fifoOnDisk := true }
        let st3 :=
          if env.openFifoOk then { st2 with fifoWriterOpen := true } else st2
        if !env.openLogOk then
          { outcome := Except.error "failed to open log file",
            state := rollbackPtyProc
              { st3 with fifoWriterOpen := false, fifoOnDisk := false } }
        else
          { outcome := Except.ok
              { id := id,
                pty := some freshFile,
                logFile := some freshFile,
                fifoPath := "~/.webpty/sessions/" ++ id ++ ".out",
                fifoWriter := if env.openFifoOk then some freshFile else none,
                procPresent := true },
            state :=
              { st3 with logOpen := true, registered := true,
                         readLoopStarted := true } }

/-- Failure of some step among 2-6 of the spawn protocol: pty/child
start, directory provisioning (expansion and creation), stale-pipe
removal / pipe creation, pipe open, log open. -/
def spawnStepFails (env : SpawnEnv) : Prop :=
  env.ptyStartOk = false ∨ env.expandSessionsOk = false ∨
  env.expandLogOk = false ∨ env.mkdirSessionsOk = false ∨
  env.mkdirLogOk = false ∨ env.removeStaleOk = false ∨
  env.mkfifoOk = false ∨ env.openFifoOk = false ∨ env.openLogOk = false

/-- Statement of claim C1 as written: whenever any of steps 2-6 of a
spawn attempt fails, the attempt returns an error, all prior allocations
are released, and nothing is left in the registry or on disk. -/
def spawnAtomicClaim : Prop :=
  ∀ (env : SpawnEnv) (id sh : String),
    env.detect = Except.ok sh → spawnStepFails env →
    exceptIsOk (spawnShell env id).outcome = false
    ∧ (spawnShell env id).state.registered = false
    ∧ (spawnShell env id).state.fifoOnDisk = false
    ∧ ((spawnShell env id).state.ptyStarted = true →
        (spawnShell env id).state.ptyClosed = true)
    ∧ ((spawnShell env id).state.procStarted = true →
        (spawnShell env id).state.procKilled = true)

/-- Environment in which every step succeeds except the non-blocking
FIFO open (the macOS no-reader-yet condition). -/
def envFifoOpenFails : SpawnEnv :=
  { detect := Except.ok "/bin/bash", ptyStartOk := true,
    expandSessionsOk := true, expandLogOk := true,
    mkdirSessionsOk := true, mkdirLogOk := true,
    removeStaleOk := true, mkfifoOk := true,
    openFifoOk := false, openLogOk := true }

/-- Environment in which `syscall.Mkfifo` fails and everything else
succeeds. -/
def envMkfifoFails : SpawnEnv :=
  { detect := Except.ok "/bin/bash", ptyStartOk := true,
    expandSessionsOk := true, expandLogOk := true,
    mkdirSessionsOk := true, mkdirLogOk := true,
    removeStaleOk := true, mkfifoOk := false,
    openFifoOk := true, openLogOk := true }

/-! ### Request handlers (`server.go`, `src/unnamed/part_004`) -/

/-- Wire response: `ok` flag and optional error string. -/
structure Response where
  ok : Bool
  err : Option String
  deriving DecidableEq, Repr

/-- The session registry (`Manager.sessions`), as an association list
with at most one entry per id. -/
abbrev Registry := List (String × Session)

/-- `Manager.Get`: lookup by id, `none` when absent. -/
def regGet (reg : Registry) (id : String) : Option Session :=
  match reg.find? (fun p => p.1 == id) with
  | some p => some p.2
  | none => none

/-- Data of a `write` request (bytes already decoded from the JSON
string). -/
structure WriteReq where
  id : String
  data : Chunk
  deriving DecidableEq, Repr

/-- Data of a `resize` request; `cols`/`rows` are Go `int`s. -/
structure ResizeReq where
  id : String
  cols : Int
  rows : Int
  deriving DecidableEq, Repr

/-- Data of a `kill` request. -/
structure KillReq where
  id : String
  deriving DecidableEq, Repr

/-- Model of `handleWrite` (`server.go` lines 125-150): empty-id check,
registry lookup, then `sess.Write`; the registry is never mutated. -/
def handleWrite (reg : Registry) (req : WriteReq) : Response × Registry :=
  if req.id = "" then
    ({ ok := false, err := some "session ID is required" }, reg)
  else
    match regGet reg req.id with
    | none => ({ ok := false, err := some "session not found" }, reg)
    | some sess =>
      match sess.write req.data with
      | Except.error e => ({ ok := false, err := some (werrMessage e) }, reg)
      | Except.ok _ => ({ ok := true, err := none }, reg)

/-- Everything observable about one `handleResize` call: the response,
the registry afterwards, whether `Session.Resize` was reached, and the
window size applied to the pty when it was. -/
structure ResizeOutcome where
  resp : Response
  reg : Registry
  sessionResizeReached : Bool
  applied : Option Winsize
  deriving DecidableEq, Repr

/-- Model of `handleResize` (`server.go` lines 152-182): empty-id check,
then the `cols <= 0 || rows <= 0` boundary validation, then registry
lookup, then `sess.Resize`; the registry is never mutated. -/
def handleResize (reg : Registry) (req : ResizeReq) : ResizeOutcome :=
  if req.id = "" then
    { resp := { ok := false, err := some "session ID is required" },
      reg := reg, sessionResizeReached := false, applied := none }
  else if req.cols ≤ 0 ∨ req.rows ≤ 0 then
    { resp := { ok := false, err := some "cols and rows must be positive" },
      reg := reg, sessionResizeReached := false, applied := none }
  else
    match regGet reg req.id with
    | none =>
      { resp := { ok := false, err := some "session not found" },
        reg := reg, sessionResizeReached := false, applied := none }
    | some sess =>
      match sess.resize req.cols req.rows with
      | Except.error e =>
        { resp := { ok := false, err := some (werrMessage e) },
          reg := reg, sessionResizeReached := true, applied := none }
      | Except.ok ws =>
        { resp := { ok := true, err := none },
          reg := reg, sessionResizeReached := true, applied := some ws }

/-- Model of `handleKill` (`server.go` lines 184-204): empty-id check,
registry lookup, then `CleanupSession` (whose last step removes the
entry from the registry). -/
def handleKill (reg : Registry) (req : KillReq) : Response × Registry :=
  if req.id = "" then
    ({ ok := false, err := some "session ID is required" }, reg)
  else
    match regGet reg req.id with
    | none => ({ ok := false, err := some "session not found" }, reg)
    | some _sess =>
      ({ ok := true, err := none }, reg.eraseP (fun p => p.1 == req.id))

/-- Statement of claim C8 as written: every write, resize or kill request
naming an id absent from the registry returns the not-found error and
leaves the registry unchanged. -/
def unknownIdNotFoundClaim : Prop :=
  ∀ (reg : Registry) (id : String), regGet reg id = none →
    (∀ data : Chunk,
      (handleWrite reg { id := id, data := data }).1.err = some "session not found"
      ∧ (handleWrite reg { id := id, data := data }).2 = reg)
    ∧ (∀ cols rows : Int,
      (handleResize reg { id := id, cols := cols, rows := rows }).resp.err
          = some "session not found"
      ∧ (handleResize reg { id := id, cols := cols, rows := rows }).reg = reg)
    ∧ ((handleKill reg { id := id }).1.err = some "session not found"
      ∧ (handleKill reg { id := id }).2 = reg)

/-! ## Helper lemmas -/

/-- Projection of `cleanupSession` onto the session object. -/
theorem cleanupSession_sess (e : Bool) (w : World) :
    (cleanupSession e w).1.sess = (closeHandles w.sess).1 := rfl

/-- Projection of `cleanupSession` onto the effective-removal counter. -/
theorem cleanupSession_removeEffective (e : Bool) (w : World) :
    (cleanupSession e w).1.removeEffective
      = w.removeEffective + (if w.registryHasEntry then 1 else 0) := rfl

/-- Teardown always ends with the registry entry absent. -/
theorem cleanupSession_registryHasEntry (e : Bool) (w : World) :
    (cleanupSession e w).1.registryHasEntry = false := rfl

/-- Closing the handles does not touch the `procPresent` flag. -/
theorem closeHandles_procPresent (s : Session) :
    (closeHandles s).1.procPresent = s.procPresent := rfl

/-- Closing the handles does not touch the `fifoPath` field. -/
theorem closeHandles_fifoPath (s : Session) :
    (closeHandles s).1.fifoPath = s.fifoPath := rfl

/-- Field projections of `closeHandles`. -/
theorem closeHandles_pty (s : Session) :
    (closeHandles s).1.pty = closeOptFile s.pty := rfl

/-- Field projection of `closeHandles` for the log file. -/
theorem closeHandles_logFile (s : Session) :
    (closeHandles s).1.logFile = closeOptFile s.logFile := rfl

/-- Field projection of `closeHandles` for the FIFO writer. -/
theorem closeHandles_fifoWriter (s : Session) :
    (closeHandles s).1.fifoWriter = closeOptFile s.fifoWriter := rfl

/-- Two guarded closes release the underlying descriptor exactly once. -/
theorem closeOptFile_twice_fd (o : Option FileM)
    (h0 : ∀ f, o = some f → f.fdCloses = 0) :
    ∀ f, closeOptFile (closeOptFile o) = some f → f.fdCloses = 1 := by
  intro f hf
  cases o with
  | none => simp [closeOptFile] at hf
  | some g =>
    have hg := h0 g rfl
    simp only [closeOptFile] at hf
    injection hf with hf
    subst hf
    simp [FileM.close, hg]

/-- The events of the handle-closing phase are close events only. -/
theorem closeHandles_events (s : Session) :
    ∀ e ∈ (closeHandles s).2,
      e = CEvent.closePty ∨ e = CEvent.closeLog ∨ e = CEvent.closeFifoWriter := by
  intro e he
  rcases s with ⟨i, p, l, fp, fw, pp⟩
  cases p <;> cases l <;> cases fw <;>
    simp [closeHandles, closeEvt] at he <;> tauto

/-- The trace of one teardown run, when the process handles are present. -/
theorem cleanupSession_trace (e : Bool) (w : World)
    (hp : w.sess.procPresent = true) :
    (cleanupSession e w).2 = (closeHandles w.sess).2
      ++ (if w.sess.fifoPath = "" then [] else [CEvent.removeFifoFile])
      ++ procTermEvents e ++ [CEvent.removeFromRegistry] := by
  simp [cleanupSession, closeHandles_procPresent, closeHandles_fifoPath, hp]

/-- The Go `isExecutable` decides exactly the claim's usability notion. -/
theorem isExecutable_eq_usableShell (fs : FSys) (p : String) :
    isExecutable fs p = usableShell fs p := by
  unfold isExecutable usableShell
  cases h1 : fs.statOk p <;> cases h2 : fs.isRegular p <;>
    cases h3 : fs.execBit p <;> cases h4 : fs.absOk p <;>
      cases h5 : fs.lookPathOk p <;> simp [h1, h2, h3, h4, h5]

/-- The candidate loop of `DetectShell` is `List.find?`. -/
theorem firstExecutable_eq_find (fs : FSys) (l : List String) :
    firstExecutable fs l = l.find? (isExecutable fs) := by
  induction l with
  | nil => simp [firstExecutable]
  | cons c rest ih =>
    by_cases h : isExecutable fs c = true
    · simp [firstExecutable, h]
    · simp only [Bool.not_eq_true] at h
      simp [firstExecutable, h, ih]

/-! ## Claim theorems -/

/-- C3: the claim states that once teardown has closed the pty master
handle the session's `Pty` field is nil and subsequent `Write`/`Resize`
calls fail via the nil guard without operating on the released handle.
The code contradicts this: `CleanupSession` closes the pty but never
assigns `sess.Pty = nil` (making the `s.Pty == nil` guards in
`Session.Write`/`Session.Resize` unreachable), so after teardown the
field still points at the closed file object and write/resize reach the
handle, failing with the `os.ErrClosed`-level error instead of
`io.ErrClosedPipe`.  This theorem evaluates the model at the failing
input: a freshly spawned session (`w0`) torn down once, then written to
and resized. -/
theorem c3_pty_field_not_nil_after_teardown :
    (cleanupSession false w0).1.sess.pty ≠ none
    ∧ Session.write (cleanupSession false w0).1.sess [104, 105]
        = Except.error WErr.errFileClosed
    ∧ Session.resize (cleanupSession false w0).1.sess 80 24
        = Except.error WErr.errFileClosed
    ∧ WErr.errFileClosed ≠ WErr.errClosedPipe := by decide

/-- Log content distributes over trace concatenation. -/
theorem logContent_append (a b : List LEvent) :
    logContent (a ++ b) = logContent a ++ logContent b := by
  simp [logContent]

/-- Log-event extraction distributes over trace concatenation. -/
theorem logEvents_append (a b : List LEvent) :
    logEvents (a ++ b) = logEvents a ++ logEvents b := by
  simp [logEvents]

/-- One unfolding step of the relay loop for a non-empty chunk. -/
theorem readLoopEvents_cons_nonempty (fp : Bool) (c : Chunk)
    (rest : List Chunk) (hc : c.isEmpty = false) :
    readLoopEvents fp true (c :: rest)
      = ((if fp then [LEvent.fifoDispatch c] else [])
          ++ [LEvent.logWrite c, LEvent.logSync])
        ++ readLoopEvents fp true rest := by
  simp [readLoopEvents, hc]

/-- The per-chunk trace contributes exactly the chunk to the log. -/
theorem logContent_chunkTrace (fp : Bool) (c : Chunk) :
    logContent ((if fp then [LEvent.fifoDispatch c] else [])
        ++ [LEvent.logWrite c, LEvent.logSync]) = c := by
  cases fp <;> simp [logContent]

/-- The per-chunk trace's log events: a write followed at once by a
flush, with no dependence on the FIFO side. -/
theorem logEvents_chunkTrace (fp : Bool) (c : Chunk) :
    logEvents ((if fp then [LEvent.fifoDispatch c] else [])
        ++ [LEvent.logWrite c, LEvent.logSync])
      = [LEvent.logWrite c, LEvent.logSync] := by
  cases fp <;> simp [logEvents]

/-- The log file receives the in-order concatenation of the chunks. -/
theorem logContent_readLoopEvents (fp : Bool) (reads : List Chunk) :
    logContent (readLoopEvents fp true reads) = reads.flatten := by
  induction reads with
  | nil => simp [readLoopEvents, logContent]
  | cons c rest ih =>
    by_cases hc : c.isEmpty
    · have hce : c = [] := by simpa using hc
      subst hce
      simpa [readLoopEvents, logContent] using ih
    · simp only [Bool.not_eq_true] at hc
      rw [readLoopEvents_cons_nonempty fp c rest hc, logContent_append,
        logContent_chunkTrace, ih, List.flatten_cons]

/-- The log-sink event stream: for each non-empty chunk, in order, a
synchronous write immediately followed by a flush. -/
theorem logEvents_readLoopEvents (fp : Bool) (reads : List Chunk) :
    logEvents (readLoopEvents fp true reads)
      = (reads.filter (fun c => !c.isEmpty)).flatMap
          (fun c => [LEvent.logWrite c, LEvent.logSync]) := by
  induction reads with
  | nil => simp [readLoopEvents, logEvents]
  | cons c rest ih =>
    by_cases hc : c.isEmpty
    · have hce : c = [] := by simpa using hc
      subst hce
      simpa [readLoopEvents, logEvents] using ih
    · simp only [Bool.not_eq_true] at hc
      rw [readLoopEvents_cons_nonempty fp c rest hc, logEvents_append,
        logEvents_chunkTrace, ih]
      simp [hc]

/-- C4: for every session lifetime and every sequence of chunks read
from the pty by the relay loop, the log sink's content is exactly the
in-order concatenation of those chunks, byte for byte; each non-empty
chunk is appended synchronously and flushed (`Sync`) immediately after
the write; and the log-sink events are identical whether or not a
pipe-sink writer is attached. -/
theorem c4_log_sink_is_exact_concatenation (fifoPresent : Bool)
    (reads : List Chunk) :
    logContent (readLoopEvents fifoPresent true reads) = reads.flatten
    ∧ logEvents (readLoopEvents fifoPresent true reads)
        = (reads.filter (fun c => !c.isEmpty)).flatMap
            (fun c => [LEvent.logWrite c, LEvent.logSync])
    ∧ logEvents (readLoopEvents fifoPresent true reads)
        = logEvents (readLoopEvents false true reads) := by
  refine ⟨logContent_readLoopEvents fifoPresent reads,
    logEvents_readLoopEvents fifoPresent reads, ?_⟩
  rw [logEvents_readLoopEvents fifoPresent reads,
    logEvents_readLoopEvents false reads]

/-- C7: shell resolution returns the first usable candidate in the order
given by the claim — the `SHELL` environment value when set, then
`/bin/bash`, `/bin/zsh`, `/bin/sh` — where usable means the path exists,
is a regular file, has an execute permission bit, and resolves as an
executable path; and it errors exactly when no candidate is usable.
(The model is a pure function of the environment and filesystem facts,
so determinism and absence of side effects hold by construction.) -/
theorem c7_detect_shell_first_usable (fs : FSys) (shellEnv : String) :
    detectShell fs shellEnv =
      (match (shellCandidates shellEnv).find? (usableShell fs) with
       | some c => Except.ok c
       | none => Except.error
           "no shell found: checked $SHELL, /bin/bash, /bin/zsh, /bin/sh")
    ∧ (exceptIsOk (detectShell fs shellEnv) = false ↔
        ∀ c ∈ shellCandidates shellEnv, usableShell fs c = false) := by
  have hfun : isExecutable fs = usableShell fs :=
    funext (isExecutable_eq_usableShell fs)
  have hmain : detectShell fs shellEnv =
      (match (shellCandidates shellEnv).find? (usableShell fs) with
       | some c => Except.ok c
       | none => Except.error
           "no shell found: checked $SHELL, /bin/bash, /bin/zsh, /bin/sh") := by
    by_cases henv : shellEnv = ""
    · simp [detectShell, henv, shellCandidates, firstExecutable_eq_find, hfun]
    · by_cases hex : usableShell fs shellEnv = true
      · simp [detectShell, henv, hfun, hex, shellCandidates, List.find?]
      · simp only [Bool.not_eq_true] at hex
        simp [detectShell, henv, hfun, hex, shellCandidates,
          firstExecutable_eq_find, List.find?]
  refine ⟨hmain, ?_⟩
  rw [hmain]
  cases hf : (shellCandidates shellEnv).find? (usableShell fs) with
  | none =>
    rw [List.find?_eq_none] at hf
    simp only [exceptIsOk]
    constructor
    · intro _ c hc
      simpa using hf c hc
    · intro _
      trivial
  | some c =>
    have hcmem := List.mem_of_find?_eq_some hf
    have hcus := List.find?_some hf
    simp only [exceptIsOk]
    constructor
    · intro h
      exact absurd h (by simp)
    · intro h
      have := h c hcmem
      rw [this] at hcus
      exact absurd hcus (by simp)

/-- Counterexample to claim C8 as stated: with an empty registry, a
resize request naming the unknown id "x" but carrying `cols = 0` is
answered with the dimension-validation error, not with the not-found
error, because `handleResize` validates the dimensions before looking
the id up. -/
theorem c8_counterexample : ¬ unknownIdNotFoundClaim := by
  intro h
  have h2 := ((h [] "x" rfl).2.1 0 24).1
  exact absurd h2 (by decide)

/-- C8 (amended): for every well-formed write, resize, or kill request —
non-empty id and, for resize, positive cols and rows — naming a session
id not present in the registry, the handler returns the not-found error
and leaves the registry unchanged.  (Requests failing the earlier
validation return that validation error instead, also without mutating
the registry; the write and resize handlers never mutate it at all.) -/
theorem c8_unknown_id_not_found (reg : Registry) (id : String)
    (data : Chunk) (cols rows : Int)
    (hid : id ≠ "") (hc : 0 < cols) (hr : 0 < rows)
    (hnone : regGet reg id = none) :
    handleWrite reg { id := id, data := data }
        = ({ ok := false, err := some "session not found" }, reg)
    ∧ handleResize reg { id := id, cols := cols, rows := rows }
        = { resp := { ok := false, err := some "session not found" },
            reg := reg, sessionResizeReached := false, applied := none }
    ∧ handleKill reg { id := id }
        = ({ ok := false, err := some "session not found" }, reg) := by
  have hdim : ¬(cols ≤ 0 ∨ rows ≤ 0) := by omega
  refine ⟨?_, ?_, ?_⟩ <;>
    simp [handleWrite, handleResize, handleKill, hid, hdim, hnone]

/-- Witness for C8 (amended) at a concrete input: empty registry, id
"x", a one-byte write, and an 80x24 resize. -/
theorem c8_unknown_id_not_found_witness :
    handleWrite [] { id := "x", data := [104] }
        = ({ ok := false, err := some "session not found" }, [])
    ∧ handleResize [] { id := "x", cols := 80, rows := 24 }
        = { resp := { ok := false, err := some "session not found" },
            reg := [], sessionResizeReached := false, applied := none }
    ∧ handleKill [] { id := "x" }
        = ({ ok := false, err := some "session not found" }, []) :=
  c8_unknown_id_not_found [] "x" [104] 80 24 (by decide) (by decide)
    (by decide) rfl

/-- C9: every resize request with `cols <= 0` or `rows <= 0` is rejected
at the protocol boundary with an error response before the session's
`Resize` operation is reached (no resize applied, registry untouched);
and `Session.Resize` itself performs no dimension validation beyond
requiring a live pty handle — on a live handle it accepts any `cols` and
`rows` whatsoever. -/
theorem c9_nonpositive_resize_rejected_at_boundary (reg : Registry)
    (req : ResizeReq) (s : Session) (f : FileM) (cols rows : Int)
    (hbad : req.cols ≤ 0 ∨ req.rows ≤ 0)
    (hpty : s.pty = some f) (hlive : f.isClosed = false) :
    ((handleResize reg req).resp.ok = false
     ∧ (handleResize reg req).sessionResizeReached = false
     ∧ (handleResize reg req).applied = none
     ∧ (handleResize reg req).reg = reg)
    ∧ s.resize cols rows
        = Except.ok { rows := goUint16 rows, cols := goUint16 cols } := by
  constructor
  · by_cases hidq : req.id = "" <;> simp [handleResize, hidq, hbad]
  · simp [Session.resize, hpty, hlive]

/-- Witness for C9 at a concrete input: a zero-column resize request on
an empty registry is rejected before any session operation, and a live
session accepts the garbage dimensions `cols = -5`, `rows = 70000`. -/
theorem c9_nonpositive_resize_rejected_at_boundary_witness :
    ((handleResize [] { id := "x", cols := 0, rows := 24 }).resp.ok = false
     ∧ (handleResize [] { id := "x", cols := 0, rows := 24 }).sessionResizeReached = false
     ∧ (handleResize [] { id := "x", cols := 0, rows := 24 }).applied = none
     ∧ (handleResize [] { id := "x", cols := 0, rows := 24 }).reg = [])
    ∧ sess0.resize (-5) 70000
        = Except.ok { rows := goUint16 70000, cols := goUint16 (-5) } :=
  c9_nonpositive_resize_rejected_at_boundary [] { id := "x", cols := 0, rows := 24 }
    sess0 freshFile (-5) 70000 (by decide) rfl rfl

/-- C10: for every resize request that passes the positivity check at
the boundary, the dimensions actually applied to the pty are the
requested values reduced modulo 2^16, because `Session.Resize` narrows
both `int`s with `uint16(...)`. -/
theorem c10_resize_narrows_mod_65536 (reg : Registry) (id : String)
    (cols rows : Int) (sess : Session) (f : FileM)
    (hid : id ≠ "") (hc : 0 < cols) (hr : 0 < rows)
    (hget : regGet reg id = some sess) (hpty : sess.pty = some f)
    (hlive : f.isClosed = false) :
    (handleResize reg { id := id, cols := cols, rows := rows }).applied
        = some { rows := (rows % 65536).toNat, cols := (cols % 65536).toNat }
    ∧ (handleResize reg { id := id, cols := cols, rows := rows }).resp.ok
        = true := by
  have hdim : ¬(cols ≤ 0 ∨ rows ≤ 0) := by omega
  simp [handleResize, hid, hdim, hget, Session.resize, hpty, hlive, goUint16]

/-- Witness for C10 at the claim's example input: `cols = 65616` on a
live session is applied as `2^16`-reduced `80` (with `rows = 24`
unchanged). -/
theorem c10_resize_narrows_mod_65536_witness :
    (handleResize [("abc", sess0)]
        { id := "abc", cols := 65616, rows := 24 }).applied
      = some { rows := 24, cols := 80 }
    ∧ (handleResize [("abc", sess0)]
        { id := "abc", cols := 65616, rows := 24 }).resp.ok = true := by
  have h := c10_resize_narrows_mod_65536 [("abc", sess0)] "abc" 65616 24
    sess0 freshFile (by decide) (by decide) (by decide) (by decide) rfl rfl
  simpa using h

/-- Counterexample to claim C1 as stated: in the environment where every
step succeeds except step 5 (the non-blocking FIFO open), the spawn does
not fail and does not roll back — it succeeds, registers the session,
and leaves the pipe file on disk — contradicting the claim that a
failure of any of steps 2-6 releases all allocations and leaves nothing
in the registry or on disk. -/
theorem c1_counterexample : ¬ spawnAtomicClaim := by
  intro h
  have h2 := h envFifoOpenFails "s" "/bin/bash" rfl
    (by simp [spawnStepFails, envFifoOpenFails])
  exact absurd h2.1 (by decide)

/-- C1 (amended): spawn is atomic on fatal failure — whenever
`SpawnShell` returns an error (a failure of step 2: pty/child start,
step 3: directory expansion or creation, step 4: stale-pipe removal or
pipe creation, or step 6: log open), all previously successful
allocations from that attempt are released (pty closed, pipe removed
from disk, pipe writer closed, just-started process killed) before the
error is returned, nothing is registered and no relay loop is started.
A failure of step 5 (opening the pipe for non-blocking write) is
non-fatal and triggers no rollback (see C6). -/
theorem c1_spawn_rollback_on_error (env : SpawnEnv) (id msg : String)
    (herr : (spawnShell env id).outcome = Except.error msg) :
    (spawnShell env id).state.registered = false
    ∧ (spawnShell env id).state.fifoOnDisk = false
    ∧ (spawnShell env id).state.fifoWriterOpen = false
    ∧ (spawnShell env id).state.readLoopStarted = false
    ∧ ((spawnShell env id).state.ptyStarted = true →
        (spawnShell env id).state.ptyClosed = true)
    ∧ ((spawnShell env id).state.procStarted = true →
        (spawnShell env id).state.procKilled = true) := by
  rcases env with ⟨det, p, e1, e2, m1, m2, r, mf, oF, oL⟩
  cases det <;> cases p <;> cases e1 <;> cases e2 <;> cases m1 <;>
    cases m2 <;> cases r <;> cases mf <;> cases oF <;> cases oL <;>
      first
        | (simp [spawnShell, initialSpawnState, rollbackPtyProc]; done)
        | simp [spawnShell] at herr

/-- Witness for C1 (amended) at a concrete input: the environment in
which `Mkfifo` fails rolls everything back. -/
theorem c1_spawn_rollback_on_error_witness :
    (spawnShell envMkfifoFails "w1").outcome
        = Except.error "failed to create FIFO"
    ∧ ((spawnShell envMkfifoFails "w1").state.registered = false
      ∧ (spawnShell envMkfifoFails "w1").state.fifoOnDisk = false
      ∧ (spawnShell envMkfifoFails "w1").state.fifoWriterOpen = false
      ∧ (spawnShell envMkfifoFails "w1").state.readLoopStarted = false
      ∧ ((spawnShell envMkfifoFails "w1").state.ptyStarted = true →
          (spawnShell envMkfifoFails "w1").state.ptyClosed = true)
      ∧ ((spawnShell envMkfifoFails "w1").state.procStarted = true →
          (spawnShell envMkfifoFails "w1").state.procKilled = true)) :=
  ⟨rfl, c1_spawn_rollback_on_error envMkfifoFails "w1" "failed to create FIFO" rfl⟩

/-- C6: failure of step 5 of the spawn protocol — opening the named pipe
for non-blocking write before any reader has attached — is non-fatal:
the spawn succeeds anyway, the returned session has its pipe sink absent
(`fifoWriter = nil`, log-only degraded mode), the session is registered
and its relay loop started, the pipe file stays on disk, and no rollback
(pty close, process kill) is triggered by that failure alone. -/
theorem c6_fifo_open_failure_nonfatal (env : SpawnEnv) (id sh : String)
    (hdet : env.detect = Except.ok sh)
    (hp : env.ptyStartOk = true) (he1 : env.expandSessionsOk = true)
    (he2 : env.expandLogOk = true) (hm1 : env.mkdirSessionsOk = true)
    (hm2 : env.mkdirLogOk = true) (hrs : env.removeStaleOk = true)
    (hmf : env.mkfifoOk = true) (hof : env.openFifoOk = false)
    (hol : env.openLogOk = true) :
    (spawnShell env id).outcome = Except.ok
      { id := id, pty := some freshFile, logFile := some freshFile,
        fifoPath := "~/.webpty/sessions/" ++ id ++ ".out",
        fifoWriter := none, procPresent := true }
    ∧ (spawnShell env id).state.registered = true
    ∧ (spawnShell env id).state.fifoOnDisk = true
    ∧ (spawnShell env id).state.fifoWriterOpen = false
    ∧ (spawnShell env id).state.logOpen = true
    ∧ (spawnShell env id).state.readLoopStarted = true
    ∧ (spawnShell env id).state.ptyClosed = false
    ∧ (spawnShell env id).state.procKilled = false := by
  rcases env with ⟨det, p, e1, e2, m1, m2, r, mf, oF, oL⟩
  cases hdet
  cases hp
  cases he1
  cases he2
  cases hm1
  cases hm2
  cases hrs
  cases hmf
  cases hof
  cases hol
  exact ⟨rfl, rfl, rfl, rfl, rfl, rfl, rfl, rfl⟩

/-- Witness for C6 at a concrete input: the environment in which only
the FIFO open fails yields a registered, log-only session. -/
theorem c6_fifo_open_failure_nonfatal_witness :
    (spawnShell envFifoOpenFails "s6").outcome = Except.ok
      { id := "s6", pty := some freshFile, logFile := some freshFile,
        fifoPath := "~/.webpty/sessions/" ++ "s6" ++ ".out",
        fifoWriter := none, procPresent := true }
    ∧ (spawnShell envFifoOpenFails "s6").state.registered = true
    ∧ (spawnShell envFifoOpenFails "s6").state.fifoOnDisk = true
    ∧ (spawnShell envFifoOpenFails "s6").state.fifoWriterOpen = false
    ∧ (spawnShell envFifoOpenFails "s6").state.logOpen = true
    ∧ (spawnShell envFifoOpenFails "s6").state.readLoopStarted = true
    ∧ (spawnShell envFifoOpenFails "s6").state.ptyClosed = false
    ∧ (spawnShell envFifoOpenFails "s6").state.procKilled = false :=
  c6_fifo_open_failure_nonfatal envFifoOpenFails "s6" "/bin/bash"
    rfl rfl rfl rfl rfl rfl rfl rfl rfl rfl

/-- Counterexample to claim C2 as stated: the teardown steps are not
guarded by checks of whether the resource is already released — the
fields are never cleared, so a second invocation of teardown on the
fully allocated session `w0` invokes `Close` on the pty handle a second
time (and likewise on the other handles). -/
theorem c2_counterexample : ¬ teardownGuardClaim := by
  intro h
  exact absurd (h w0 false false).1 (by decide)

/-- C2 (amended): invoking teardown twice on the same session does not
release any underlying OS descriptor twice (each descriptor of a freshly
spawned session is released exactly once across both runs, because the
file objects internally reject a second close) and does not double-remove
the registry entry (the entry is removed effectively exactly once; the
second map deletion is a no-op); every model step is total, so no run
panics.  What the guards do NOT do is detect prior release: the nil
checks test fields that are never cleared, so the second run re-invokes
`Close` and re-signals the process (harmlessly). -/
theorem c2_teardown_effects_idempotent (w : World) (e1 e2 : Bool)
    (hp : ∀ f, w.sess.pty = some f → f.fdCloses = 0)
    (hl : ∀ f, w.sess.logFile = some f → f.fdCloses = 0)
    (hf : ∀ f, w.sess.fifoWriter = some f → f.fdCloses = 0)
    (hr : w.removeEffective = 0) :
    (∀ f, (cleanupSession e2 (cleanupSession e1 w).1).1.sess.pty = some f →
        f.fdCloses = 1)
    ∧ (∀ f, (cleanupSession e2 (cleanupSession e1 w).1).1.sess.logFile = some f →
        f.fdCloses = 1)
    ∧ (∀ f, (cleanupSession e2 (cleanupSession e1 w).1).1.sess.fifoWriter = some f →
        f.fdCloses = 1)
    ∧ (cleanupSession e2 (cleanupSession e1 w).1).1.removeEffective
        = (if w.registryHasEntry then 1 else 0)
    ∧ (cleanupSession e2 (cleanupSession e1 w).1).1.registryHasEntry = false := by
  refine ⟨?_, ?_, ?_, ?_, ?_⟩
  · rw [cleanupSession_sess, cleanupSession_sess, closeHandles_pty,
      closeHandles_pty]
    exact closeOptFile_twice_fd w.sess.pty hp
  · rw [cleanupSession_sess, cleanupSession_sess, closeHandles_logFile,
      closeHandles_logFile]
    exact closeOptFile_twice_fd w.sess.logFile hl
  · rw [cleanupSession_sess, cleanupSession_sess, closeHandles_fifoWriter,
      closeHandles_fifoWriter]
    exact closeOptFile_twice_fd w.sess.fifoWriter hf
  · rw [cleanupSession_removeEffective, cleanupSession_removeEffective,
      cleanupSession_registryHasEntry, hr]
    simp
  · exact cleanupSession_registryHasEntry e2 (cleanupSession e1 w).1

/-- Witness for C2 (amended) at a concrete input: tearing the freshly
spawned session `w0` down twice releases each descriptor once and
removes the registry entry once. -/
theorem c2_teardown_effects_idempotent_witness :
    (∀ f, (cleanupSession false (cleanupSession false w0).1).1.sess.pty = some f →
        f.fdCloses = 1)
    ∧ (∀ f, (cleanupSession false (cleanupSession false w0).1).1.sess.logFile = some f →
        f.fdCloses = 1)
    ∧ (∀ f, (cleanupSession false (cleanupSession false w0).1).1.sess.fifoWriter = some f →
        f.fdCloses = 1)
    ∧ (cleanupSession false (cleanupSession false w0).1).1.removeEffective
        = (if w0.registryHasEntry then 1 else 0)
    ∧ (cleanupSession false (cleanupSession false w0).1).1.registryHasEntry = false :=
  c2_teardown_effects_idempotent w0 false false
    (fun f hfe => by cases hfe; rfl)
    (fun f hfe => by cases hfe; rfl)
    (fun f hfe => by cases hfe; rfl)
    rfl

/-- C5: teardown's process-termination phase, whenever the process
handles are present (in particular while the child is alive): a graceful
SIGTERM is sent; the exit check (`select` with a `default` branch) is
effectively non-blocking — no blocking wait occurs anywhere in the trace
before it; if the process has not exited by the time of that check, a
forceful SIGKILL is sent immediately followed by a final blocking wait;
and in every case the child ends up reaped, so no zombie remains.
`exited` models the outcome of the race at the `select`. -/
theorem c5_escalation_nonblocking_check (w : World) (exited : Bool)
    (hproc : w.sess.procPresent = true) :
    ((cleanupSession exited w).1.termSignals = w.termSignals + 1
      ∧ CEvent.sigTerm ∈ (cleanupSession exited w).2)
    ∧ (∃ pre post, (cleanupSession exited w).2
          = pre ++ CEvent.exitCheck :: post
        ∧ CEvent.blockingWait ∉ pre)
    ∧ (exited = false →
        (cleanupSession exited w).1.killSignals = w.killSignals + 1
        ∧ ∃ pre post, (cleanupSession exited w).2
            = pre ++ CEvent.exitCheck :: CEvent.sigKill ::
                CEvent.blockingWait :: post)
    ∧ (exited = true →
        (cleanupSession exited w).1.killSignals = w.killSignals)
    ∧ (cleanupSession exited w).1.reaped = true := by
  have htr := cleanupSession_trace exited w hproc
  have hpre : ∀ e ∈ (closeHandles w.sess).2
        ++ (if w.sess.fifoPath = "" then [] else [CEvent.removeFifoFile])
        ++ [CEvent.sigTerm, CEvent.startWaiter],
      e ≠ CEvent.blockingWait := by
    intro e he hbw
    subst hbw
    rw [List.mem_append, List.mem_append] at he
    rcases he with (he | he) | he
    · rcases closeHandles_events w.sess _ he with h | h | h <;> cases h
    · by_cases hfp : w.sess.fifoPath = "" <;> simp [hfp] at he
    · simp at he
  refine ⟨⟨?_, ?_⟩, ?_, ?_, ?_, ?_⟩
  · simp [cleanupSession, closeHandles_procPresent, hproc]
  · rw [htr]
    simp [procTermEvents]
  · refine ⟨(closeHandles w.sess).2
        ++ (if w.sess.fifoPath = "" then [] else [CEvent.removeFifoFile])
        ++ [CEvent.sigTerm, CEvent.startWaiter],
      (if exited then [CEvent.reapByWaiter]
       else [CEvent.sigKill, CEvent.blockingWait])
        ++ [CEvent.removeFromRegistry], ?_, ?_⟩
    · rw [htr]
      simp [procTermEvents]
    · intro hmem
      exact hpre CEvent.blockingWait hmem rfl
  · intro hex
    subst hex
    refine ⟨?_, ?_⟩
    · simp [cleanupSession, closeHandles_procPresent, hproc]
    · refine ⟨(closeHandles w.sess).2
          ++ (if w.sess.fifoPath = "" then [] else [CEvent.removeFifoFile])
          ++ [CEvent.sigTerm, CEvent.startWaiter],
        [CEvent.removeFromRegistry], ?_⟩
      rw [htr]
      simp [procTermEvents]
  · intro hex
    subst hex
    simp [cleanupSession, closeHandles_procPresent, hproc]
  · simp [cleanupSession, closeHandles_procPresent, hproc]

/-- Witness for C5 at a concrete input: the freshly spawned session `w0`
with the process not yet exited at the check. -/
theorem c5_escalation_nonblocking_check_witness :
    (((cleanupSession false w0).1.termSignals = w0.termSignals + 1
      ∧ CEvent.sigTerm ∈ (cleanupSession false w0).2)
    ∧ (∃ pre post, (cleanupSession false w0).2
          = pre ++ CEvent.exitCheck :: post
        ∧ CEvent.blockingWait ∉ pre)
    ∧ ((false : Bool) = false →
        (cleanupSession false w0).1.killSignals = w0.killSignals + 1
        ∧ ∃ pre post, (cleanupSession false w0).2
            = pre ++ CEvent.exitCheck :: CEvent.sigKill ::
                CEvent.blockingWait :: post)
    ∧ ((false : Bool) = true →
        (cleanupSession false w0).1.killSignals = w0.killSignals)
    ∧ (cleanupSession false w0).1.reaped = true) :=
  c5_escalation_nonblocking_check w0 false rfl

end WebPty
